import Mathlib

/-!
Verification of the kana-dojo translation subsystem: the Error Normalizer
(`getErrorMessage` in `src/features/Translator/services/translationAPI.ts`),
the Translation Gateway (`translate` in the same file), the Proxy Endpoint
(`POST` handler for `/api/translate`), and the History Store contract.

The embedding follows the TypeScript source. JavaScript runtime semantics
that the source relies on are modelled explicitly:
- property access `obj[key]` on a plain object literal consults the own
  properties first and then the `Object.prototype` inherited members;
- the `||` operator falls through on any falsy value (the empty string,
  `undefined`), not only on absent values;
- `!text` is true for the empty string and for falsy non-string values.
-/

namespace KanaDojo

/-- Values a JavaScript property read can produce in this program: a string,
an inherited function member (named by the member), an object (the value of
the inherited accessor property named two underscores proto), or undefined. -/
inductive JSValue where
  | str (s : String)
  | fn (name : String)
  | obj
  | undefined
deriving DecidableEq, Repr

/-- Truthiness of a JSValue, as JavaScript evaluates it in a condition or on
the left of the logical-or operator: a string is truthy iff nonempty;
functions and objects are truthy; undefined is falsy. -/
def JSValue.truthy : JSValue → Bool
  | .str s => s ≠ ""
  | .fn _ => true
  | .obj => true
  | .undefined => false

/-- Own properties of the ERROR_MESSAGES object literal
(translationAPI.ts lines 22-32), keyed by the six ERROR_CODES strings. -/
def ERROR_MESSAGES_own : String → Option String := fun code =>
  if code = "INVALID_INPUT" then some "Please enter valid text to translate."
  else if code = "RATE_LIMIT" then
    some "Too many requests. Please wait a moment and try again."
  else if code = "API_ERROR" then
    some "Translation service is temporarily unavailable."
  else if code = "AUTH_ERROR" then some "Translation service configuration error."
  else if code = "NETWORK_ERROR" then
    some "Unable to connect. Please check your internet connection."
  else if code = "OFFLINE" then
    some "You are offline. Please check your internet connection."
  else none

/-- Members inherited from Object.prototype by every plain object literal.
A bracket read with one of these keys on ERROR_MESSAGES yields the inherited
member, a function value (or Object.prototype itself for the proto accessor),
never undefined. The list is the standard set of Object.prototype members,
the same twelve names the repository test suite enumerates as reservedProps. -/
def objectPrototypeGet : String → Option JSValue := fun key =>
  if key = "constructor" then some (.fn "Object")
  else if key = "toString" then some (.fn "toString")
  else if key = "valueOf" then some (.fn "valueOf")
  else if key = "hasOwnProperty" then some (.fn "hasOwnProperty")
  else if key = "isPrototypeOf" then some (.fn "isPrototypeOf")
  else if key = "propertyIsEnumerable" then some (.fn "propertyIsEnumerable")
  else if key = "toLocaleString" then some (.fn "toLocaleString")
  else if key = "__proto__" then some .obj
  else if key = "__defineGetter__" then some (.fn "__defineGetter__")
  else if key = "__defineSetter__" then some (.fn "__defineSetter__")
  else if key = "__lookupGetter__" then some (.fn "__lookupGetter__")
  else if key = "__lookupSetter__" then some (.fn "__lookupSetter__")
  else none

/-- JavaScript bracket read ERROR_MESSAGES[code]: the own property when it
exists, else the Object.prototype inherited member, else undefined. -/
def ERROR_MESSAGES_get (code : String) : JSValue :=
  match ERROR_MESSAGES_own code with
  | some s => .str s
  | none =>
    match objectPrototypeGet code with
    | some v => v
    | none => .undefined

/-- Embedding of getErrorMessage (translationAPI.ts lines 37-39):
ERROR_MESSAGES[code] short-circuited by logical-or with
ERROR_MESSAGES[ERROR_CODES.API_ERROR]. -/
def getErrorMessage (code : String) : JSValue :=
  if (ERROR_MESSAGES_get code).truthy then ERROR_MESSAGES_get code
  else ERROR_MESSAGES_get "API_ERROR"

example : getErrorMessage "OFFLINE" =
    .str "You are offline. Please check your internet connection." := by decide

example : getErrorMessage "bogus" =
    .str "Translation service is temporarily unavailable." := by decide

example : getErrorMessage "constructor" = .fn "Object" := by decide

/-- Structured error thrown by the Gateway (type TranslationAPIError):
an error code, a human-readable message and a numeric status. The message is
a JSValue because the fallback arm of the non-ok branch calls
getErrorMessage, whose JavaScript value need not be a string. -/
structure TranslationAPIError where
  code : String
  message : JSValue
  status : Nat
deriving DecidableEq, Repr

/-- Body the Gateway obtains from response.json() on the proxy response:
any of the four fields may be absent. -/
structure RespBody where
  code : Option String
  message : Option String
  translatedText : Option String
  detectedSourceLanguage : Option String
deriving DecidableEq, Repr

/-- Outcome of the fetch call the Gateway issues to /api/translate:
either the fetch promise rejects with a TypeError (transport failure), or a
response arrives with an HTTP status and a body; parse = none means
response.json() throws a SyntaxError (the body is not valid JSON). -/
inductive FetchOutcome where
  | transportError
  | response (status : Nat) (parse : Option RespBody)
deriving DecidableEq, Repr

/-- Result of the Gateway translate call: the parsed success body returned
as-is (the source returns data as TranslationAPIResponse), or a thrown
TranslationAPIError. -/
inductive TranslateResult where
  | ok (body : RespBody)
  | err (e : TranslationAPIError)
deriving DecidableEq, Repr

/-- JavaScript logical-or over the optional code field of the response body,
as in data.code logical-or ERROR_CODES.API_ERROR: an absent field is
undefined (falsy) and the empty string is falsy. -/
def jsCodeOr (code : Option String) (dflt : String) : String :=
  match code with
  | some c => if c = "" then dflt else c
  | none => dflt

/-- Key that getErrorMessage(data.code) reads when data.code is absent:
JavaScript coerces the undefined property key to the string undefined. -/
def jsKeyOfCode : Option String → String
  | some c => c
  | none => "undefined"

/-- Message field of the error the Gateway builds on a non-ok response:
data.message logical-or getErrorMessage(data.code). -/
def gatewayErrMessage (message : Option String) (code : Option String) : JSValue :=
  match message with
  | some m => if m = "" then getErrorMessage (jsKeyOfCode code) else .str m
  | none => getErrorMessage (jsKeyOfCode code)

/-- Check text.trim().length === 0 of the source: a string trims to the
empty string exactly when every character is whitespace (vacuously so for
the empty string, which the source catches earlier with not-text). The
whitespace set is modelled by Char.isWhitespace; the claims only involve
ordinary spaces, on which the JavaScript trim set agrees. -/
def jsTrimEmpty (s : String) : Bool :=
  s.toList.all (fun c => c.isWhitespace)

/-- Embedding of the Gateway translate (translationAPI.ts lines 59-149).
Parameters: online is the navigator.onLine connectivity flag read by
isOnline; text is the input; fetch is the outcome of the one network call
(consulted only after the three local checks pass). The local checks mirror
the source order: offline, then empty-after-trim (the source condition
not-text or trim-length-zero is equivalent for a string to trim = empty),
then length over 5000. On a response, response.json() runs before the ok
check; a parse failure throws a SyntaxError which the catch block maps to
API_ERROR 500 (it is not a TypeError and carries no code/message/status
fields). A transport TypeError maps to NETWORK_ERROR 0. The error thrown by
the non-ok branch has code, message and status fields, so the catch block
rethrows it unchanged. String length counts characters; the source counts
UTF-16 code units, which agrees on all texts used in the claims. -/
def translate (online : Bool) (text : String) (fetch : FetchOutcome) :
    TranslateResult :=
  if online = false then
    .err ⟨"OFFLINE", getErrorMessage "OFFLINE", 0⟩
  else if jsTrimEmpty text then
    .err ⟨"INVALID_INPUT", .str "Please enter text to translate.", 400⟩
  else if text.length > 5000 then
    .err ⟨"INVALID_INPUT", .str "Text exceeds maximum length of 5000 characters.", 400⟩
  else
    match fetch with
    | .transportError =>
      .err ⟨"NETWORK_ERROR", getErrorMessage "NETWORK_ERROR", 0⟩
    | .response status parse =>
      match parse with
      | none => .err ⟨"API_ERROR", getErrorMessage "API_ERROR", 500⟩
      | some data =>
        if 200 ≤ status ∧ status ≤ 299 then
          .ok data
        else
          .err ⟨jsCodeOr data.code "API_ERROR",
                gatewayErrMessage data.message data.code, status⟩

example :
    translate true "hello" (.response 200 (some ⟨none, none, some "t", none⟩)) =
      .ok ⟨none, none, some "t", none⟩ := by decide

example :
    translate false "hello" .transportError =
      .err ⟨"OFFLINE", .str "You are offline. Please check your internet connection.", 0⟩ := by
  decide

example :
    translate true "   " .transportError =
      .err ⟨"INVALID_INPUT", .str "Please enter text to translate.", 400⟩ := by decide

example :
    translate true "hi" (.response 418 (some ⟨some "", some "oops", none, none⟩)) =
      .err ⟨"API_ERROR", .str "oops", 418⟩ := by decide

/-- JavaScript error value, as the Proxy catch block inspects it: whether it
is a TypeError, and whether its message contains the substring fetch. A
transport-level failure of the fetch call is a TypeError whose message
mentions fetch; that is exactly the condition the source tests. -/
structure JsError where
  isTypeError : Bool
  messageIncludesFetch : Bool
deriving DecidableEq, Repr

/-- SyntaxError thrown by json() on a body that is not valid JSON: not a
TypeError, message does not mention fetch. -/
def jsonSyntaxErr : JsError := ⟨false, false⟩

/-- TypeError thrown by reading translatedText on undefined when the
translations array is empty: a TypeError whose message (reading
translatedText of undefined) does not mention fetch. -/
def undefinedReadErr : JsError := ⟨true, false⟩

/-- Value of the text field of the request body as the Proxy sees it: a
JSON string, or anything else (absent, null, a number, an object, ...).
The check not-text or typeof-text-not-string fires on every non-string and
on the empty string, so non-strings need no further distinction. -/
inductive BodyText where
  | str (s : String)
  | nonStr
deriving DecidableEq, Repr

/-- Parsed request body of the Proxy: the text field and the two language
fields (a language field that is absent or not a string never passes the
validLanguages.includes check, so it is modelled as none). -/
structure ReqBody where
  text : BodyText
  sourceLanguage : Option String
  targetLanguage : Option String
deriving DecidableEq, Repr

/-- One element of data.data.translations in the provider response. -/
structure Translation where
  translatedText : String
  detectedSourceLanguage : Option String
deriving DecidableEq, Repr

/-- Outcome of the fetch call the Proxy issues to the provider: the fetch
throws a JavaScript error, or a response arrives with an HTTP status,
a flag telling whether json() parses (and the body has the data.data
shape), and the translations array. -/
inductive ProviderOutcome where
  | throwErr (e : JsError)
  | response (status : Nat) (jsonParses : Bool) (translations : List Translation)
deriving DecidableEq, Repr

/-- Error body the Proxy returns: code, message and status fields. -/
structure ErrorBody where
  code : String
  message : String
  status : Nat
deriving DecidableEq, Repr

/-- Response of the Proxy POST handler: an error JSON body together with
the HTTP status of the response, or the success JSON body with
translatedText and optional detectedSourceLanguage. -/
inductive PostResult where
  | errorResp (body : ErrorBody) (httpStatus : Nat)
  | successResp (translatedText : String) (detectedSourceLanguage : Option String)
deriving DecidableEq, Repr

/-- Membership test validLanguages.includes on an optional language field. -/
def isValidLang : Option String → Bool
  | some l => l = "en" ∨ l = "ja"
  | none => false

/-- Fetch Response.ok: status in the inclusive range 200 to 299. -/
def respOk (status : Nat) : Bool := 200 ≤ status ∧ status ≤ 299

/-- Body of the try block of the Proxy POST handler (part_000 lines 34-162).
The request argument is none when request.json() throws (invalid JSON).
Validation order follows the source: text missing, not a string or falsy
(the empty string); then empty after trim; then length over 5000; then
language membership; then the API key; then the provider call. A thrown
JavaScript error is returned in the Except error component for the catch
block. On provider success, reading translations[0].translatedText on an
empty array throws a TypeError. -/
def tryBlock (req : Option ReqBody) (apiKey : Bool)
    (provider : ProviderOutcome) : Except JsError PostResult :=
  match req with
  | none => .error jsonSyntaxErr
  | some body =>
    match body.text with
    | .nonStr =>
      .ok (.errorResp ⟨"INVALID_INPUT", "Please enter valid text to translate.", 400⟩ 400)
    | .str s =>
      if s = "" then
        .ok (.errorResp ⟨"INVALID_INPUT", "Please enter valid text to translate.", 400⟩ 400)
      else if jsTrimEmpty s then
        .ok (.errorResp ⟨"INVALID_INPUT", "Please enter text to translate.", 400⟩ 400)
      else if s.length > 5000 then
        .ok (.errorResp ⟨"INVALID_INPUT", "Text exceeds maximum length of 5000 characters.", 400⟩ 400)
      else if ¬(isValidLang body.sourceLanguage ∧ isValidLang body.targetLanguage) then
        .ok (.errorResp ⟨"INVALID_INPUT", "Invalid language selection.", 400⟩ 400)
      else if apiKey = false then
        .ok (.errorResp ⟨"AUTH_ERROR", "Translation service configuration error.", 500⟩ 500)
      else
        match provider with
        | .throwErr e => .error e
        | .response status jsonParses translations =>
          if status = 429 then
            .ok (.errorResp ⟨"RATE_LIMIT", "Too many requests. Please wait a moment and try again.", 429⟩ 429)
          else if status = 401 ∨ status = 403 then
            .ok (.errorResp ⟨"AUTH_ERROR", "Translation service configuration error.", status⟩ status)
          else if respOk status = false then
            .ok (.errorResp ⟨"API_ERROR", "Translation service is temporarily unavailable.", status⟩ status)
          else if jsonParses = false then
            .error jsonSyntaxErr
          else
            match translations with
            | [] => .error undefinedReadErr
            | t :: _ => .ok (.successResp t.translatedText t.detectedSourceLanguage)

/-- Catch block of the Proxy POST handler (part_000 lines 163-186): a
TypeError whose message includes fetch becomes NETWORK_ERROR 503; every
other error becomes API_ERROR 500. -/
def catchBlock (e : JsError) : PostResult :=
  if e.isTypeError ∧ e.messageIncludesFetch then
    .errorResp ⟨"NETWORK_ERROR", "Unable to connect. Please check your internet connection.", 503⟩ 503
  else
    .errorResp ⟨"API_ERROR", "Translation service is temporarily unavailable.", 500⟩ 500

/-- The full Proxy POST handler (part_000 lines 33-187): the try block with
its catch handler. Total by construction: every execution yields a
PostResult. -/
def POST (req : Option ReqBody) (apiKey : Bool)
    (provider : ProviderOutcome) : PostResult :=
  match tryBlock req apiKey provider with
  | .ok r => r
  | .error e => catchBlock e

example :
    POST (some ⟨.str "hi", some "en", some "ja"⟩) true
        (.response 200 true [⟨"konnichiwa", some "en"⟩]) =
      .successResp "konnichiwa" (some "en") := by decide

example :
    POST (some ⟨.str "hi", some "en", some "ja"⟩) true (.response 429 true []) =
      .errorResp ⟨"RATE_LIMIT", "Too many requests. Please wait a moment and try again.", 429⟩ 429 := by
  decide

example :
    POST none true (.response 200 true []) =
      .errorResp ⟨"API_ERROR", "Translation service is temporarily unavailable.", 500⟩ 500 := by
  decide

example :
    POST (some ⟨.str "hi", some "en", some "ja"⟩) true (.response 200 true []) =
      .errorResp ⟨"API_ERROR", "Translation service is temporarily unavailable.", 500⟩ 500 := by
  decide

example :
    POST (some ⟨.str "hi", some "en", some "ja"⟩) true (.throwErr ⟨true, true⟩) =
      .errorResp ⟨"NETWORK_ERROR", "Unable to connect. Please check your internet connection.", 503⟩ 503 := by
  decide

example :
    POST (some ⟨.str "", some "en", some "ja"⟩) true (.response 200 true []) =
      .errorResp ⟨"INVALID_INPUT", "Please enter valid text to translate.", 400⟩ 400 := by
  decide

/-- Record persisted by the History Store (type TranslationEntry of the
Translator feature): identifier, source text, translated text, both
language codes, optional romanization, and an integer timestamp. -/
structure TranslationEntry where
  id : String
  sourceText : String
  translatedText : String
  sourceLanguage : String
  targetLanguage : String
  romanization : Option String
  timestamp : Nat
deriving DecidableEq, Repr

/-- State of the History Store: the ordered sequence of persisted entries. -/
abbrev HistoryState : Type := List TranslationEntry

/-- Modelled from the spec: historyService.ts is exported by the Translator
barrel and exercised by the property tests, but the file itself is not in
the sources available here. Per the spec, loadHistory produces the ordered
sequence of all persisted entries and never fails on an empty store. -/
def loadHistory (h : HistoryState) : List TranslationEntry := h

/-- Modelled from the spec: historyService.ts is not in the sources
available here. Per the spec, saveEntry appends or upserts the entry keyed
by its identifier, with round-trip fidelity on every field. -/
def saveEntry (h : HistoryState) (e : TranslationEntry) : HistoryState :=
  if h.any (fun x => x.id = e.id) then
    h.map (fun x => if x.id = e.id then e else x)
  else
    h ++ [e]

/-- Modelled from the spec: historyService.ts is not in the sources
available here. Per the spec, deleteEntry removes exactly the entry with
the given identifier, is idempotent, and preserves the other entries. -/
def deleteEntry (h : HistoryState) (id : String) : HistoryState :=
  h.filter (fun x => x.id ≠ id)

/-- Modelled from the spec: historyService.ts is not in the sources
available here. Per the spec, clearAll removes every entry. -/
def clearAll (_h : HistoryState) : HistoryState := []

example :
    loadHistory (saveEntry [] ⟨"a", "s", "t", "en", "ja", none, 5⟩) =
      [⟨"a", "s", "t", "en", "ja", none, 5⟩] := by decide

example :
    deleteEntry (saveEntry [] ⟨"a", "s", "t", "en", "ja", none, 5⟩) "a" = [] := by
  decide

/-- C1: the claim states that for every code outside the six-code taxonomy,
reserved object-protocol property names included, getErrorMessage returns
the API_ERROR fallback message, treating the code purely as string data.
The code does not: ERROR_MESSAGES is a plain object literal, so the bracket
lookup falls through to the Object.prototype inherited members, which are
truthy, and the logical-or fallback never fires. At the failing input
constructor the function returns the inherited constructor function (and
similarly toString, the proto accessor value, and the other inherited
member names), not the API_ERROR fallback string; for codes that are not
inherited member names the fallback does fire. -/
theorem C1_getErrorMessage_reserved_names :
    getErrorMessage "constructor" = JSValue.fn "Object"
    ∧ getErrorMessage "constructor" ≠
        JSValue.str "Translation service is temporarily unavailable."
    ∧ getErrorMessage "toString" = JSValue.fn "toString"
    ∧ getErrorMessage "__proto__" = JSValue.obj
    ∧ getErrorMessage "hasOwnProperty" = JSValue.fn "hasOwnProperty"
    ∧ getErrorMessage "definitely-unknown-code" =
        JSValue.str "Translation service is temporarily unavailable."
    ∧ getErrorMessage "INVALID_INPUT" =
        JSValue.str "Please enter valid text to translate."
    ∧ getErrorMessage "OFFLINE" =
        JSValue.str "You are offline. Please check your internet connection." := by
  decide

/-- C2: for every valid TranslationEntry, saving it and then loading the
history yields an entry whose id and every other field equal those of the
saved entry (round-trip fidelity). Settled against the History Store
modelled from the spec, since historyService.ts is not among the sources. -/
theorem C2_history_roundtrip (h : HistoryState) (e : TranslationEntry) :
    ∃ x ∈ loadHistory (saveEntry h e),
      x.id = e.id ∧ x.sourceText = e.sourceText
      ∧ x.translatedText = e.translatedText
      ∧ x.sourceLanguage = e.sourceLanguage
      ∧ x.targetLanguage = e.targetLanguage
      ∧ x.romanization = e.romanization
      ∧ x.timestamp = e.timestamp := by
  refine ⟨e, ?_, rfl, rfl, rfl, rfl, rfl, rfl, rfl⟩
  unfold loadHistory saveEntry
  by_cases hany : h.any (fun x => x.id = e.id) = true
  · rw [if_pos hany]
    rw [List.any_eq_true] at hany
    obtain ⟨x, hx, hid⟩ := hany
    rw [List.mem_map]
    exact ⟨x, hx, by rw [if_pos (of_decide_eq_true hid)]⟩
  · rw [if_neg hany]
    exact List.mem_append_right _ (List.mem_singleton.mpr rfl)

/-- C3: the Gateway checks its three local preconditions in order before
any network request: offline fails with OFFLINE and status 0; else a text
that is empty after trimming fails with INVALID_INPUT, 400 and the
enter-text message; else a text longer than 5000 characters fails with
INVALID_INPUT, 400 and the maximum-length message. On each of these
failure paths the result is independent of the fetch outcome, which is the
shallow-embedding statement that no network call is made. -/
theorem C3_gateway_preconditions (online : Bool) (text : String)
    (f f' : FetchOutcome) :
    (online = false →
      translate online text f = .err ⟨"OFFLINE", getErrorMessage "OFFLINE", 0⟩)
    ∧ (online = true → jsTrimEmpty text = true →
      translate online text f =
        .err ⟨"INVALID_INPUT", .str "Please enter text to translate.", 400⟩)
    ∧ (online = true → jsTrimEmpty text = false → text.length > 5000 →
      translate online text f =
        .err ⟨"INVALID_INPUT",
              .str "Text exceeds maximum length of 5000 characters.", 400⟩)
    ∧ ((online = false ∨ jsTrimEmpty text = true ∨ text.length > 5000) →
      translate online text f = translate online text f') := by
  refine ⟨?_, ?_, ?_, ?_⟩
  · intro h; simp [translate, h]
  · intro h ht; simp [translate, h, ht]
  · intro h ht hl; simp [translate, h, ht, hl]
  · rintro (h | h | h)
    · simp [translate, h]
    · cases online with
      | false => simp [translate]
      | true => simp [translate, h]
    · cases online with
      | false => simp [translate]
      | true =>
        cases ht : jsTrimEmpty text with
        | true => simp [translate, ht]
        | false => simp [translate, ht, h]

/-- Text of 5001 identical characters, exceeding the 5000-character limit. -/
def longText : String := String.mk (List.replicate 5001 'a')

/-- Length of the over-limit text, computed without unfolding the list. -/
theorem longText_length : longText.length = 5001 := by
  show (List.replicate 5001 'a').length = 5001
  exact List.length_replicate 5001 'a'

/-- The over-limit text is not whitespace-only. -/
theorem longText_not_trim_empty : jsTrimEmpty longText = false := by
  show (List.replicate 5001 'a').all (fun c => c.isWhitespace) = false
  apply Bool.eq_false_iff.mpr
  intro h
  have ha := List.all_eq_true.mp h 'a' (List.mem_replicate.mpr ⟨by decide, rfl⟩)
  exact absurd ha (by decide)

/-- C3 witness: the theorem applied at concrete inputs exercising all four
conjuncts (offline, whitespace-only text, over-long text, and
fetch-independence). -/
theorem C3_gateway_preconditions_witness :
    translate false "hi" .transportError =
      .err ⟨"OFFLINE", getErrorMessage "OFFLINE", 0⟩
    ∧ translate true "  " .transportError =
      .err ⟨"INVALID_INPUT", .str "Please enter text to translate.", 400⟩
    ∧ translate true longText .transportError =
      .err ⟨"INVALID_INPUT",
            .str "Text exceeds maximum length of 5000 characters.", 400⟩
    ∧ translate true "  " .transportError =
      translate true "  " (.response 200 none) := by
  refine ⟨(C3_gateway_preconditions false "hi" .transportError .transportError).1 rfl,
    (C3_gateway_preconditions true "  " .transportError .transportError).2.1 rfl (by decide),
    (C3_gateway_preconditions true longText .transportError .transportError).2.2.1 rfl
      longText_not_trim_empty (by rw [longText_length]; omega),
    (C3_gateway_preconditions true "  " .transportError (.response 200 none)).2.2.2
      (Or.inr (Or.inl (by decide)))⟩

/-- C4: whenever the try block of the Proxy POST handler throws a
JavaScript error (the provider call or any other statement in the try
block), the handler responds with NETWORK_ERROR and status 503 when the
error is a transport-level failure (a TypeError whose message mentions
fetch, which is how the source recognises a failed fetch), and with
API_ERROR and status 500 for any other error. -/
theorem C4_proxy_exception_mapping (req : Option ReqBody) (apiKey : Bool)
    (provider : ProviderOutcome) (e : JsError)
    (h : tryBlock req apiKey provider = .error e) :
    (e.isTypeError = true ∧ e.messageIncludesFetch = true →
      POST req apiKey provider =
        .errorResp ⟨"NETWORK_ERROR",
          "Unable to connect. Please check your internet connection.", 503⟩ 503)
    ∧ (¬(e.isTypeError = true ∧ e.messageIncludesFetch = true) →
      POST req apiKey provider =
        .errorResp ⟨"API_ERROR",
          "Translation service is temporarily unavailable.", 500⟩ 500) := by
  unfold POST
  rw [h]
  constructor
  · intro ht; simp [catchBlock, ht.1, ht.2]
  · intro ht; simp only [catchBlock]; rw [if_neg ht]

/-- C4 witness: a transport failure of the provider call on a valid
request maps to NETWORK_ERROR 503, and an invalid request JSON body (a
SyntaxError in the try block) maps to API_ERROR 500. -/
theorem C4_proxy_exception_mapping_witness :
    POST (some ⟨.str "hi", some "en", some "ja"⟩) true (.throwErr ⟨true, true⟩) =
      .errorResp ⟨"NETWORK_ERROR",
        "Unable to connect. Please check your internet connection.", 503⟩ 503
    ∧ POST none true (.response 200 true []) =
      .errorResp ⟨"API_ERROR",
        "Translation service is temporarily unavailable.", 500⟩ 500 :=
  ⟨(C4_proxy_exception_mapping (some ⟨.str "hi", some "en", some "ja"⟩) true
      (.throwErr ⟨true, true⟩) ⟨true, true⟩ rfl).1 ⟨rfl, rfl⟩,
   (C4_proxy_exception_mapping none true (.response 200 true [])
      jsonSyntaxErr rfl).2 (by decide)⟩

/-- C5: for a validated request (nonempty trimmed text within the length
limit, both languages valid, credential present), the Proxy maps the
provider response as follows: provider status 429 becomes RATE_LIMIT 429;
status 401 or 403 becomes AUTH_ERROR with the same status and the generic
configuration-error message; any other non-success status becomes
API_ERROR with the same status; and on provider success the handler
returns the first translation result translatedText and optional
detectedSourceLanguage verbatim. -/
theorem C5_provider_response_mapping (s : String) (sl tl : Option String)
    (hTrim : jsTrimEmpty s = false) (hLen : s.length ≤ 5000)
    (hSl : isValidLang sl = true) (hTl : isValidLang tl = true)
    (status : Nat) (jsonParses : Bool) (ts : List Translation) :
    (status = 429 →
      POST (some ⟨.str s, sl, tl⟩) true (.response status jsonParses ts) =
        .errorResp ⟨"RATE_LIMIT",
          "Too many requests. Please wait a moment and try again.", 429⟩ 429)
    ∧ (status = 401 ∨ status = 403 →
      POST (some ⟨.str s, sl, tl⟩) true (.response status jsonParses ts) =
        .errorResp ⟨"AUTH_ERROR",
          "Translation service configuration error.", status⟩ status)
    ∧ (status ≠ 429 → ¬(status = 401 ∨ status = 403) → respOk status = false →
      POST (some ⟨.str s, sl, tl⟩) true (.response status jsonParses ts) =
        .errorResp ⟨"API_ERROR",
          "Translation service is temporarily unavailable.", status⟩ status)
    ∧ (respOk status = true → jsonParses = true →
      ∀ t rest, ts = t :: rest →
      POST (some ⟨.str s, sl, tl⟩) true (.response status jsonParses ts) =
        .successResp t.translatedText t.detectedSourceLanguage) := by
  have hs : ¬(s = "") := by
    intro he
    rw [he] at hTrim
    exact absurd hTrim (by decide)
  have hlen' : ¬(s.length > 5000) := by omega
  refine ⟨?_, ?_, ?_, ?_⟩
  · intro h429
    simp [POST, tryBlock, hs, hTrim, hlen', hSl, hTl, h429]
  · intro hauth
    have hne429 : ¬(status = 429) := by
      rcases hauth with h | h <;> omega
    simp [POST, tryBlock, hs, hTrim, hlen', hSl, hTl, hne429, hauth]
  · intro hne429 hnauth hnok
    simp [POST, tryBlock, hs, hTrim, hlen', hSl, hTl, hne429, hnauth, hnok]
  · intro hok hparse t rest hts
    have hb : 200 ≤ status ∧ status ≤ 299 := by
      have := of_decide_eq_true hok
      exact this
    have hne429 : ¬(status = 429) := by omega
    have hnauth : ¬(status = 401 ∨ status = 403) := by omega
    simp [POST, tryBlock, hs, hTrim, hlen', hSl, hTl, hne429, hnauth, hok,
      hparse, hts]

/-- C5 witness: the theorem applied at concrete inputs exercising the 429,
403, 500 and success branches. -/
theorem C5_provider_response_mapping_witness :
    POST (some ⟨.str "hi", some "en", some "ja"⟩) true (.response 429 true []) =
      .errorResp ⟨"RATE_LIMIT",
        "Too many requests. Please wait a moment and try again.", 429⟩ 429
    ∧ POST (some ⟨.str "hi", some "en", some "ja"⟩) true (.response 403 true []) =
      .errorResp ⟨"AUTH_ERROR",
        "Translation service configuration error.", 403⟩ 403
    ∧ POST (some ⟨.str "hi", some "en", some "ja"⟩) true (.response 500 true []) =
      .errorResp ⟨"API_ERROR",
        "Translation service is temporarily unavailable.", 500⟩ 500
    ∧ POST (some ⟨.str "hi", some "en", some "ja"⟩) true
        (.response 200 true [⟨"konnichiwa", some "en"⟩]) =
      .successResp "konnichiwa" (some "en") :=
  ⟨(C5_provider_response_mapping "hi" (some "en") (some "ja") (by decide)
      (by decide) (by decide) (by decide) 429 true []).1 rfl,
   (C5_provider_response_mapping "hi" (some "en") (some "ja") (by decide)
      (by decide) (by decide) (by decide) 403 true []).2.1 (Or.inr rfl),
   (C5_provider_response_mapping "hi" (some "en") (some "ja") (by decide)
      (by decide) (by decide) (by decide) 500 true []).2.2.1 (by decide)
      (by decide) (by decide),
   (C5_provider_response_mapping "hi" (some "en") (some "ja") (by decide)
      (by decide) (by decide) (by decide) 200 true
      [⟨"konnichiwa", some "en"⟩]).2.2.2 (by decide) rfl
      ⟨"konnichiwa", some "en"⟩ [] rfl⟩

/-- C7: for a failure inside the Gateway try block that is not already a
structured TranslationAPIError, the Gateway maps a transport-level failure
(the fetch promise rejecting with a TypeError, meaning the request never
reached the endpoint) to NETWORK_ERROR with status 0, and any other
unexpected failure (here the SyntaxError thrown by response.json on an
unparsable body) to API_ERROR with status 500. -/
theorem C7_gateway_unstructured_failures (text : String)
    (hTrim : jsTrimEmpty text = false) (hLen : text.length ≤ 5000)
    (status : Nat) :
    translate true text .transportError =
      .err ⟨"NETWORK_ERROR",
        .str "Unable to connect. Please check your internet connection.", 0⟩
    ∧ translate true text (.response status none) =
      .err ⟨"API_ERROR",
        .str "Translation service is temporarily unavailable.", 500⟩ := by
  have hlen' : ¬(text.length > 5000) := by omega
  constructor
  · simp [translate, hTrim, hlen']
    decide
  · simp [translate, hTrim, hlen']
    decide

/-- C7 witness: the theorem applied at a concrete text and status. -/
theorem C7_gateway_unstructured_failures_witness :
    translate true "hi" .transportError =
      .err ⟨"NETWORK_ERROR",
        .str "Unable to connect. Please check your internet connection.", 0⟩
    ∧ translate true "hi" (.response 404 none) =
      .err ⟨"API_ERROR",
        .str "Translation service is temporarily unavailable.", 500⟩ :=
  C7_gateway_unstructured_failures "hi" (by decide) (by decide) 404

/-- C6 counterexample: the claim routes an empty text string to its check
(2), since the empty string is present and is a string, predicting the
message Please enter text to translate. The code guards check (1) with
not-text, which is true of the empty string, so the Proxy answers with the
check (1) message Please enter valid text to translate. instead. -/
theorem C6_counterexample :
    POST (some ⟨.str "", some "en", some "ja"⟩) true (.response 200 true []) =
      .errorResp ⟨"INVALID_INPUT", "Please enter valid text to translate.", 400⟩ 400
    ∧ POST (some ⟨.str "", some "en", some "ja"⟩) true (.response 200 true []) ≠
      .errorResp ⟨"INVALID_INPUT", "Please enter text to translate.", 400⟩ 400 := by
  decide

/-- C6 amended: the Proxy applies five validation checks in order, failing
with the first that applies. (1) Text missing, not a string, or the empty
string (the source condition not-text is true of the empty string) gives
INVALID_INPUT, 400, Please enter valid text to translate. (2) Text
nonempty but whitespace-only after trim gives INVALID_INPUT, 400, Please
enter text to translate. (3) Text longer than 5000 characters gives
INVALID_INPUT, 400, the maximum-length message. (4) A source or target
language outside the two-element set gives INVALID_INPUT, 400, Invalid
language selection. (5) A missing provider credential gives AUTH_ERROR,
500, Translation service configuration error., with no credential detail
in the fixed response body. Each rejection equation holds for every
provider outcome p, which is the shallow-embedding statement that the
provider is not called on these paths. -/
theorem C6_proxy_validation_order (bt : BodyText) (bsl btl : Option String)
    (apiKey : Bool) (p : ProviderOutcome) :
    ((bt = .nonStr ∨ bt = .str "") →
      POST (some ⟨bt, bsl, btl⟩) apiKey p =
        .errorResp ⟨"INVALID_INPUT", "Please enter valid text to translate.", 400⟩ 400)
    ∧ (∀ s, bt = .str s → s ≠ "" → jsTrimEmpty s = true →
      POST (some ⟨bt, bsl, btl⟩) apiKey p =
        .errorResp ⟨"INVALID_INPUT", "Please enter text to translate.", 400⟩ 400)
    ∧ (∀ s, bt = .str s → jsTrimEmpty s = false → s.length > 5000 →
      POST (some ⟨bt, bsl, btl⟩) apiKey p =
        .errorResp ⟨"INVALID_INPUT",
          "Text exceeds maximum length of 5000 characters.", 400⟩ 400)
    ∧ (∀ s, bt = .str s → jsTrimEmpty s = false → s.length ≤ 5000 →
      ¬(isValidLang bsl = true ∧ isValidLang btl = true) →
      POST (some ⟨bt, bsl, btl⟩) apiKey p =
        .errorResp ⟨"INVALID_INPUT", "Invalid language selection.", 400⟩ 400)
    ∧ (∀ s, bt = .str s → jsTrimEmpty s = false → s.length ≤ 5000 →
      isValidLang bsl = true → isValidLang btl = true → apiKey = false →
      POST (some ⟨bt, bsl, btl⟩) apiKey p =
        .errorResp ⟨"AUTH_ERROR", "Translation service configuration error.", 500⟩ 500) := by
  refine ⟨?_, ?_, ?_, ?_, ?_⟩
  · rintro (h | h) <;> subst h <;> simp [POST, tryBlock]
  · intro s hs hne ht
    subst hs
    simp [POST, tryBlock, hne, ht]
  · intro s hs ht hl
    have hne : ¬(s = "") := by
      intro he; rw [he] at ht; exact absurd ht (by decide)
    subst hs
    simp [POST, tryBlock, hne, ht, hl]
  · intro s hs ht hl hlang
    have hne : ¬(s = "") := by
      intro he; rw [he] at ht; exact absurd ht (by decide)
    have hl' : ¬(s.length > 5000) := by omega
    have ht' : ¬(jsTrimEmpty s = true) := by simp [ht]
    subst hs
    simp only [POST, tryBlock]
    rw [if_neg hne, if_neg ht', if_neg hl', if_pos hlang]
  · intro s hs ht hl hsl htl hkey
    have hne : ¬(s = "") := by
      intro he; rw [he] at ht; exact absurd ht (by decide)
    have hl' : ¬(s.length > 5000) := by omega
    have ht' : ¬(jsTrimEmpty s = true) := by simp [ht]
    subst hs
    subst hkey
    simp only [POST, tryBlock]
    rw [if_neg hne, if_neg ht', if_neg hl',
      if_neg (not_not_intro ⟨hsl, htl⟩)]
    simp

/-- C6 witness: the amended theorem applied at concrete request bodies
exercising each of the five checks, the whitespace-only rejection taken at
a provider outcome that would otherwise throw. -/
theorem C6_proxy_validation_order_witness :
    POST (some ⟨.nonStr, some "en", some "ja"⟩) true (.response 200 true []) =
      .errorResp ⟨"INVALID_INPUT", "Please enter valid text to translate.", 400⟩ 400
    ∧ POST (some ⟨.str " ", some "en", some "ja"⟩) true (.throwErr ⟨true, true⟩) =
      .errorResp ⟨"INVALID_INPUT", "Please enter text to translate.", 400⟩ 400
    ∧ POST (some ⟨.str longText, some "en", some "ja"⟩) true (.response 200 true []) =
      .errorResp ⟨"INVALID_INPUT",
        "Text exceeds maximum length of 5000 characters.", 400⟩ 400
    ∧ POST (some ⟨.str "hi", some "fr", some "ja"⟩) true (.response 200 true []) =
      .errorResp ⟨"INVALID_INPUT", "Invalid language selection.", 400⟩ 400
    ∧ POST (some ⟨.str "hi", some "en", some "ja"⟩) false (.response 200 true []) =
      .errorResp ⟨"AUTH_ERROR", "Translation service configuration error.", 500⟩ 500 :=
  ⟨(C6_proxy_validation_order .nonStr (some "en") (some "ja") true
      (.response 200 true [])).1 (Or.inl rfl),
   (C6_proxy_validation_order (.str " ") (some "en") (some "ja") true
      (.throwErr ⟨true, true⟩)).2.1 " " rfl (by decide) (by decide),
   (C6_proxy_validation_order (.str longText) (some "en") (some "ja") true
      (.response 200 true [])).2.2.1 longText rfl
      longText_not_trim_empty (by rw [longText_length]; omega),
   (C6_proxy_validation_order (.str "hi") (some "fr") (some "ja") true
      (.response 200 true [])).2.2.2.1 "hi" rfl
      (by decide) (by decide) (by decide),
   (C6_proxy_validation_order (.str "hi") (some "en") (some "ja") false
      (.response 200 true [])).2.2.2.2 "hi" rfl
      (by decide) (by decide) (by decide) (by decide) rfl⟩

/-- C8 counterexample: on a non-success proxy response whose body carries
the code field with the empty string as its value, the claim predicts that
the Gateway error carries that supplied code. The source uses logical-or,
for which the empty string is falsy, so the Gateway substitutes API_ERROR
instead. -/
theorem C8_counterexample :
    (RespBody.mk (some "") (some "oops") none none).code = some ""
    ∧ translate true "hi"
        (.response 418 (some ⟨some "", some "oops", none, none⟩)) ≠
      .err ⟨"", .str "oops", 418⟩
    ∧ translate true "hi"
        (.response 418 (some ⟨some "", some "oops", none, none⟩)) =
      .err ⟨"API_ERROR", .str "oops", 418⟩ := by
  decide

/-- C8 amended: on every non-success proxy response (with the local
preconditions passed), the Gateway fails with a TranslationAPIError whose
status is the HTTP status of the response, whose code is exactly the code
supplied in the body whenever one is present and nonempty and exactly
API_ERROR whenever the code field is absent or empty, and whose message is
exactly the message supplied in the body whenever one is present and
nonempty and exactly the Error Normalizer output for the body code (the
property key undefined when the code field is absent) whenever the message
field is absent or empty. In particular a present nonempty code or message
always passes through, and the code is never an invented one. -/
theorem C8_gateway_error_passthrough (text : String) (status : Nat)
    (data : RespBody) (hTrim : jsTrimEmpty text = false)
    (hLen : text.length ≤ 5000) (hNok : ¬(200 ≤ status ∧ status ≤ 299)) :
    ∃ e, translate true text (.response status (some data)) = .err e
      ∧ e.status = status
      ∧ (∀ c, data.code = some c → c ≠ "" → e.code = c)
      ∧ (data.code = none ∨ data.code = some "" → e.code = "API_ERROR")
      ∧ (∀ m, data.message = some m → m ≠ "" → e.message = .str m)
      ∧ (data.message = none ∨ data.message = some "" →
          e.message = getErrorMessage (jsKeyOfCode data.code)) := by
  have hlen' : ¬(text.length > 5000) := by omega
  refine ⟨⟨jsCodeOr data.code "API_ERROR",
    gatewayErrMessage data.message data.code, status⟩, ?_, rfl, ?_, ?_, ?_, ?_⟩
  · simp [translate, hTrim, hlen', hNok]
  · intro c hc hce
    simp [jsCodeOr, hc, hce]
  · rintro (h | h) <;> simp [jsCodeOr, h]
  · intro m hm hme
    simp [gatewayErrMessage, hm, hme]
  · rintro (h | h) <;> simp [gatewayErrMessage, h]

/-- C8 witness: the amended theorem applied at a concrete text and a
concrete 418 response whose body carries the nonempty code RATE_LIMIT and
no message, so that both the code-passthrough and the message-fallback
clauses are exercised with their hypotheses discharged. -/
theorem C8_gateway_error_passthrough_witness :
    ∃ e, translate true "hi"
        (.response 418 (some ⟨some "RATE_LIMIT", none, none, none⟩)) = .err e
      ∧ e.status = 418
      ∧ (∀ c, (some "RATE_LIMIT" : Option String) = some c → c ≠ "" →
          e.code = c)
      ∧ ((some "RATE_LIMIT" : Option String) = none
          ∨ (some "RATE_LIMIT" : Option String) = some "" →
          e.code = "API_ERROR")
      ∧ (∀ m, (none : Option String) = some m → m ≠ "" → e.message = .str m)
      ∧ ((none : Option String) = none ∨ (none : Option String) = some "" →
          e.message = getErrorMessage (jsKeyOfCode (some "RATE_LIMIT"))) :=
  C8_gateway_error_passthrough "hi" 418 ⟨some "RATE_LIMIT", none, none, none⟩
    (by decide) (by decide) (by decide)

/-- Status of the provider response when one arrived. -/
def providerStatus : ProviderOutcome → Option Nat
  | .throwErr _ => none
  | .response status _ _ => some status

/-- C9: every error response of the Proxy, on every execution path, has a
body whose status field equals the HTTP status of the response, a code
from the fixed taxonomy, and a nonempty message; and the HTTP status is
one of 400, 429, 500, 503 or the passthrough status of the provider
response (which covers the 401 and 403 cases). -/
theorem C9_proxy_error_shape (req : Option ReqBody) (apiKey : Bool)
    (p : ProviderOutcome) (body : ErrorBody) (http : Nat)
    (h : POST req apiKey p = .errorResp body http) :
    body.status = http
    ∧ (body.code = "INVALID_INPUT" ∨ body.code = "RATE_LIMIT"
       ∨ body.code = "API_ERROR" ∨ body.code = "AUTH_ERROR"
       ∨ body.code = "NETWORK_ERROR" ∨ body.code = "OFFLINE")
    ∧ body.message ≠ ""
    ∧ (http = 400 ∨ http = 429 ∨ http = 500 ∨ http = 503
       ∨ providerStatus p = some http) := by
  rcases htb : tryBlock req apiKey p with e | r
  · have hp : POST req apiKey p = catchBlock e := by
      unfold POST
      rw [htb]
    rw [hp] at h
    unfold catchBlock at h
    split at h <;>
      (injection h with h1 h2
       subst h1
       subst h2
       exact ⟨rfl, by simp, by simp, by simp [providerStatus]⟩)
  · have hp : POST req apiKey p = r := by
      unfold POST
      rw [htb]
    rw [hp] at h
    subst h
    rcases req with _ | ⟨bt, bsl, btl⟩
    · unfold tryBlock at htb
      injection htb
    · rcases bt with s | _
      · unfold tryBlock at htb
        simp only [] at htb
        repeat (any_goals (split at htb))
        all_goals
          first
          | (injection htb
             done)
          | (injection htb with h1
             injection h1
             done)
          | (injection htb with h1
             injection h1 with h2 h3
             subst h2
             subst h3
             exact ⟨rfl, by simp, by simp, by simp [providerStatus]⟩)
      · unfold tryBlock at htb
        simp only [] at htb
        injection htb with h1
        injection h1 with h2 h3
        subst h2
        subst h3
        exact ⟨rfl, by simp, by simp, by simp [providerStatus]⟩

/-- C9 witness: the theorem applied to the concrete error response
produced for an invalid request JSON body. -/
theorem C9_proxy_error_shape_witness :
    (⟨"API_ERROR", "Translation service is temporarily unavailable.", 500⟩ :
        ErrorBody).status = 500
    ∧ ((⟨"API_ERROR", "Translation service is temporarily unavailable.", 500⟩ :
          ErrorBody).code = "INVALID_INPUT"
       ∨ (⟨"API_ERROR", "Translation service is temporarily unavailable.", 500⟩ :
          ErrorBody).code = "RATE_LIMIT"
       ∨ (⟨"API_ERROR", "Translation service is temporarily unavailable.", 500⟩ :
          ErrorBody).code = "API_ERROR"
       ∨ (⟨"API_ERROR", "Translation service is temporarily unavailable.", 500⟩ :
          ErrorBody).code = "AUTH_ERROR"
       ∨ (⟨"API_ERROR", "Translation service is temporarily unavailable.", 500⟩ :
          ErrorBody).code = "NETWORK_ERROR"
       ∨ (⟨"API_ERROR", "Translation service is temporarily unavailable.", 500⟩ :
          ErrorBody).code = "OFFLINE")
    ∧ (⟨"API_ERROR", "Translation service is temporarily unavailable.", 500⟩ :
        ErrorBody).message ≠ ""
    ∧ ((500 : Nat) = 400 ∨ (500 : Nat) = 429 ∨ (500 : Nat) = 500
       ∨ (500 : Nat) = 503
       ∨ providerStatus (.response 200 true []) = some 500) :=
  C9_proxy_error_shape none true (.response 200 true [])
    ⟨"API_ERROR", "Translation service is temporarily unavailable.", 500⟩ 500
    (by decide)

/-- C10: the Proxy POST handler is total at its interface: every execution
yields a response (no unhandled exception escapes, since the whole handler
body sits in the try block whose catch returns a response), and in the two
unspecified edge cases it answers API_ERROR with status 500: a request
body that is not valid JSON (request.json() throws a SyntaxError, caught
and mapped), and a provider success response whose translations array is
empty (reading translatedText of undefined throws a TypeError whose
message does not mention fetch, caught and mapped). -/
theorem C10_post_total_and_edge_cases (apiKey : Bool) (p : ProviderOutcome)
    (s : String) (sl tl : Option String) (status : Nat)
    (hTrim : jsTrimEmpty s = false) (hLen : s.length ≤ 5000)
    (hSl : isValidLang sl = true) (hTl : isValidLang tl = true)
    (hOk : respOk status = true) :
    (∀ (req : Option ReqBody) (key : Bool) (pr : ProviderOutcome),
      (∃ b hs, POST req key pr = .errorResp b hs)
      ∨ (∃ t d, POST req key pr = .successResp t d))
    ∧ POST none apiKey p =
        .errorResp ⟨"API_ERROR",
          "Translation service is temporarily unavailable.", 500⟩ 500
    ∧ POST (some ⟨.str s, sl, tl⟩) true (.response status true []) =
        .errorResp ⟨"API_ERROR",
          "Translation service is temporarily unavailable.", 500⟩ 500 := by
  have hs : ¬(s = "") := by
    intro he
    rw [he] at hTrim
    exact absurd hTrim (by decide)
  have hlen' : ¬(s.length > 5000) := by omega
  have hb : 200 ≤ status ∧ status ≤ 299 := of_decide_eq_true hOk
  have hne429 : ¬(status = 429) := by omega
  have hnauth : ¬(status = 401 ∨ status = 403) := by omega
  refine ⟨?_, ?_, ?_⟩
  · intro req key pr
    cases hres : POST req key pr with
    | errorResp b hs => exact Or.inl ⟨b, hs, rfl⟩
    | successResp t d => exact Or.inr ⟨t, d, rfl⟩
  · simp [POST, tryBlock, catchBlock, jsonSyntaxErr]
  · simp [POST, tryBlock, catchBlock, undefinedReadErr, hs, hTrim, hlen',
      hSl, hTl, hne429, hnauth, hOk]

/-- C10 witness: the theorem applied at a concrete valid request, with the
invalid-JSON and empty-translations edge cases instantiated. -/
theorem C10_post_total_and_edge_cases_witness :
    (∀ (req : Option ReqBody) (key : Bool) (pr : ProviderOutcome),
      (∃ b hs, POST req key pr = .errorResp b hs)
      ∨ (∃ t d, POST req key pr = .successResp t d))
    ∧ POST none true (.response 200 true []) =
        .errorResp ⟨"API_ERROR",
          "Translation service is temporarily unavailable.", 500⟩ 500
    ∧ POST (some ⟨.str "hi", some "en", some "ja"⟩) true (.response 200 true []) =
        .errorResp ⟨"API_ERROR",
          "Translation service is temporarily unavailable.", 500⟩ 500 :=
  C10_post_total_and_edge_cases true (.response 200 true []) "hi"
    (some "en") (some "ja") 200 (by decide) (by decide) (by decide)
    (by decide) (by decide)

end KanaDojo
